import Mathlib

/-!
Shallow embedding of `oio/cli/container/container.py` (container-related CLI
commands of oio-sds).  Each command's `take_action` is modelled as a pure
function from its parsed arguments (and the external storage client, passed as
a function parameter) to the sequence of client calls it issues and/or the
data it returns.  Python exceptions are modelled with `Except`.
-/

namespace OioContainerCli

/-- Python errors raised by the embedded code: `KeyError` from a dict lookup
and `ValueError` from `int()` on a non-numeric string. -/
inductive PyError where
  | keyError (key : String)
  | valueError (s : String)
deriving DecidableEq, Repr

/-- The single-quote character, used by Python `repr` of strings. -/
def squote : String := String.mk [Char.ofNat 39]

/-- Message of a Python exception as `str(exc)` renders it: for
`KeyError(k)` it is `repr(k)`, i.e. the key wrapped in single quotes; for
`ValueError` the plain message. -/
def pyErrMsg : PyError → String
  | .keyError k => squote ++ k ++ squote
  | .valueError s => s

/-- Whether `needle` occurs as a contiguous substring of the character list
`hay`. -/
def listContainsSub (hay needle : List Char) : Bool :=
  match hay with
  | [] => needle.isEmpty
  | c :: cs => needle.isPrefixOf (c :: cs) || listContainsSub cs needle

/-- Whether `needle` occurs as a contiguous substring of `hay`. -/
def strContains (hay needle : String) : Bool :=
  listContainsSub hay.data needle.data

/-- Modelled from the spec: well-known system-metadata key for the bucket a
container belongs to (`oio.common.constants` is not under src/). -/
def M2_PROP_BUCKET_NAME : String := "sys.m2.bucket.name"

/-- Modelled from the spec: well-known system-metadata key for the container
quota (`oio.common.constants` is not under src/). -/
def M2_PROP_QUOTA : String := "sys.m2.quota"

/-- Modelled from the spec: well-known system-metadata key for the storage
policy (`oio.common.constants` is not under src/). -/
def M2_PROP_STORAGE_POLICY : String := "sys.m2.policy.storage"

/-- Modelled from the spec: well-known system-metadata key for the
versioning policy (`oio.common.constants` is not under src/). -/
def M2_PROP_VERSIONING_POLICY : String := "sys.m2.policy.version"

/-- Modelled from the spec: well-known system-metadata key for the
delete-exceeding-versions flag (`oio.common.constants` is not under src/). -/
def M2_PROP_DEL_EXC_VERSIONS : String := "sys.m2.policy.version.delete_exceeding"

/-- Modelled from the spec: backend status code for an enabled container
(`oio.common.constants` is not under src/; only distinctness matters here). -/
def OIO_DB_ENABLED : Nat := 0

/-- Modelled from the spec: backend status code for a frozen container
(`oio.common.constants` is not under src/; only distinctness matters here). -/
def OIO_DB_FROZEN : Nat := 1

/-- Modelled from the spec: backend status code for a disabled container
(`oio.common.constants` is not under src/; only distinctness matters here). -/
def OIO_DB_DISABLED : Nat := 2

/-- Python dict assignment `d[k] = v` on an association list: replaces the
value of an existing key in place, otherwise appends the new binding. -/
def dictSet (d : List (String × String)) (k v : String) : List (String × String) :=
  match d with
  | [] => [(k, v)]
  | (k₁, v₁) :: rest => if k₁ = k then (k, v) :: rest else (k₁, v₁) :: dictSet rest k v

/-- Python truthiness of an optional string: `None` and the empty string are
falsy. -/
def pyTruthy : Option String → Bool
  | none => false
  | some s => s ≠ ""

/-- Python `x or d` where `x` is an optional string: `None` and the empty
string select the default `d`. -/
def pyOrElse (x : Option String) (d : String) : String :=
  match x with
  | none => d
  | some s => if s = "" then d else s

/-- Embedding of `ContainerCommandMixin.take_action_container`
(container.py lines 96-100): the parsed `container` argument together with
the `--cid` flag is normalized to the pair `(container, cid)`: when `is_cid`
is set, `cid` receives the given string and `container` becomes `None`;
otherwise `cid` is `None` and `container` keeps the string. -/
def take_action_container (container : String) (is_cid : Bool) :
    Option String × Option String :=
  if is_cid then (none, some container) else (some container, none)

/-- Parsed arguments of `container create` (`SetPropertyCommandMixin` flags,
`--bucket-name`, and the positional container names). `type=int` flags are
`Option Int`, `store_true`-less value flags are `Option String`. -/
structure CreateArgs where
  property : List (String × String)
  bucket_name : Option String
  quota : Option Int
  storage_policy : Option String
  max_versions : Option Int
  delete_exceeding_versions : Option Bool
  containers : List String
deriving DecidableEq, Repr

/-- Embedding of the `system` dict built by `CreateContainer.take_action`
(container.py lines 146-157): conditional dict assignments in source order.
`str(n)` on a Python int is `toString` on `Int`; `str(int(bool))` is
"1"/"0"; `if parsed_args.bucket_name:` is Python truthiness (skips both
`None` and the empty string) while the other flags are tested against
`None` only. -/
def CreateContainer.buildSystem (a : CreateArgs) : List (String × String) :=
  let system : List (String × String) := []
  let system := match a.bucket_name with
    | some s => if s = "" then system else dictSet system M2_PROP_BUCKET_NAME s
    | none => system
  let system := match a.quota with
    | some q => dictSet system M2_PROP_QUOTA (toString q)
    | none => system
  let system := match a.storage_policy with
    | some p => dictSet system M2_PROP_STORAGE_POLICY p
    | none => system
  let system := match a.max_versions with
    | some n => dictSet system M2_PROP_VERSIONING_POLICY (toString n)
    | none => system
  let system := match a.delete_exceeding_versions with
    | some b => dictSet system M2_PROP_DEL_EXC_VERSIONS (if b then "1" else "0")
    | none => system
  system

/-- A call issued by `CreateContainer.take_action` to the storage client:
either one `container_create_many` batch call or one `container_create`
call. -/
inductive CreateCall where
  | createMany (account : String) (containers : List String)
      (properties : List (String × String)) (system : List (String × String))
  | createOne (account : String) (container : String)
      (properties : List (String × String)) (system : List (String × String))
deriving DecidableEq, Repr

/-- Modelled from the spec: `container_create_many` (storage client, outside
src/) returns per-name success booleans as ordered `(name, created)` pairs,
one per requested container, in input order. -/
def container_create_many (success : String → Bool) (containers : List String) :
    List (String × Bool) :=
  containers.map fun c => (c, success c)

/-- Embedding of `CreateContainer.take_action` (container.py lines 142-177):
with more than one container name a single batch-create call is issued and
its per-name results are returned; otherwise the loop issues one
`container_create` per name and pairs each name with its success boolean.
The client is abstracted by the success functions `manySuccess` (used by the
spec-modelled batch call) and `oneSuccess`.  Returns the list of issued
calls and the `(Name, Created)` rows. -/
def CreateContainer.take_action (manySuccess oneSuccess : String → Bool)
    (account : String) (a : CreateArgs) :
    List CreateCall × List (String × Bool) :=
  let system := CreateContainer.buildSystem a
  if 1 < a.containers.length then
    ([CreateCall.createMany account a.containers a.property system],
     container_create_many manySuccess a.containers)
  else
    (a.containers.map fun c => CreateCall.createOne account c a.property system,
     a.containers.map fun c => (c, oneSuccess c))

/-- Parsed arguments of `container set`: the `SetPropertyCommandMixin`
flags, `--bucket-name`, `--clear`, `--status`, and the
`ContainerCommandMixin` container/`--cid` pair. -/
structure SetArgs where
  container : String
  is_cid : Bool
  property : List (String × String)
  bucket_name : Option String
  quota : Option Int
  storage_policy : Option String
  max_versions : Option Int
  delete_exceeding_versions : Option Bool
  clear : Bool
  status : Option String
deriving DecidableEq, Repr

/-- The `container_set_properties` call issued by `SetContainer.take_action`. -/
structure SetPropsCall where
  account : String
  container : Option String
  properties : List (String × String)
  clear : Bool
  system : List (String × String)
  cid : Option String
deriving DecidableEq, Repr

/-- The status-name-to-code dict literal of `SetContainer.take_action`
(container.py lines 268-272). -/
def SetContainer.statusValue : List (String × String) :=
  [("enabled", toString OIO_DB_ENABLED),
   ("disabled", toString OIO_DB_DISABLED),
   ("frozen", toString OIO_DB_FROZEN)]

/-- Embedding of the first five `system` dict assignments of
`SetContainer.take_action` (container.py lines 255-266), identical to the
ones in `CreateContainer.take_action`. -/
def SetContainer.buildSystemBase (a : SetArgs) : List (String × String) :=
  let system : List (String × String) := []
  let system := match a.bucket_name with
    | some s => if s = "" then system else dictSet system M2_PROP_BUCKET_NAME s
    | none => system
  let system := match a.quota with
    | some q => dictSet system M2_PROP_QUOTA (toString q)
    | none => system
  let system := match a.storage_policy with
    | some p => dictSet system M2_PROP_STORAGE_POLICY p
    | none => system
  let system := match a.max_versions with
    | some n => dictSet system M2_PROP_VERSIONING_POLICY (toString n)
    | none => system
  let system := match a.delete_exceeding_versions with
    | some b => dictSet system M2_PROP_DEL_EXC_VERSIONS (if b then "1" else "0")
    | none => system
  system

/-- Embedding of the `system` dict built by `SetContainer.take_action`
(container.py lines 255-273): the five conditional assignments of
`buildSystemBase`, then, when `--status` was given, the subscript
`status_value[parsed_args.status]` which raises `KeyError` on an
unrecognized value and otherwise stores the code under `sys.status`. -/
def SetContainer.buildSystem (a : SetArgs) : Except PyError (List (String × String)) :=
  let system := SetContainer.buildSystemBase a
  match a.status with
  | none => .ok system
  | some st =>
    match SetContainer.statusValue.lookup st with
    | some v => .ok (dictSet system "sys.status" v)
    | none => .error (.keyError st)

/-- Embedding of `SetContainer.take_action` (container.py lines 250-282):
resolves the container/CID pair, builds the system dict (which may raise
`KeyError` on a bad `--status`), and issues exactly one
`container_set_properties` call.  An `error` result means the exception was
raised before any storage-client call was made, since the call happens last. -/
def SetContainer.take_action (account : String) (a : SetArgs) :
    Except PyError SetPropsCall :=
  let r := take_action_container a.container a.is_cid
  match SetContainer.buildSystem a with
  | .error e => .error e
  | .ok system =>
      .ok ⟨account, r.1, a.property, a.clear, system, r.2⟩

/-- The `container_touch` call issued by `TouchContainer.take_action`. -/
structure TouchCall where
  account : String
  container : Option String
  recompute : Bool
  cid : Option String
deriving DecidableEq, Repr

/-- The `container_delete` call issued by `DeleteContainer.take_action`. -/
structure DeleteCall where
  account : String
  container : Option String
  cid : Option String
deriving DecidableEq, Repr

/-- Sequential fallible loop, the embedding of a Python `for` whose body
calls the client once per element: an exception propagates immediately,
aborting the rest of the loop.  Returns the elements for which a call was
issued (in order, including the failing one) and the propagated error, if
any. -/
def runSeq {α ε : Type} (op : α → Except ε Unit) : List α → List α × Option ε
  | [] => ([], none)
  | x :: xs =>
    match op x with
    | .error e => ([x], some e)
    | .ok _ =>
      let r := runSeq op xs
      (x :: r.1, r.2)

/-- The `container_touch` call built for one batch member (container.py
lines 304-315): with `--cid` the member is passed as `cid` and the
container is `None`, otherwise the member is the container name. -/
def TouchContainer.mkCall (account : String) (is_cid recompute : Bool)
    (c : String) : TouchCall :=
  if is_cid then ⟨account, none, recompute, some c⟩
  else ⟨account, some c, recompute, none⟩

/-- Embedding of `TouchContainer.take_action` (container.py lines 302-315):
a sequential loop issuing one `container_touch` per member; a client
exception aborts the loop and propagates.  Returns the issued calls in
order and the propagated error, if any. -/
def TouchContainer.take_action {ε : Type} (client : TouchCall → Except ε Unit)
    (account : String) (is_cid recompute : Bool) (containers : List String) :
    List TouchCall × Option ε :=
  let r := runSeq (fun c => client (TouchContainer.mkCall account is_cid recompute c))
    containers
  (r.1.map (TouchContainer.mkCall account is_cid recompute), r.2)

/-- The `container_delete` call built for one batch member (container.py
lines 331-342). -/
def DeleteContainer.mkCall (account : String) (is_cid : Bool) (c : String) :
    DeleteCall :=
  if is_cid then ⟨account, none, some c⟩ else ⟨account, some c, none⟩

/-- Embedding of `DeleteContainer.take_action` (container.py lines 328-342):
a sequential loop issuing one `container_delete` per member; a client
exception aborts the loop and propagates. -/
def DeleteContainer.take_action {ε : Type} (client : DeleteCall → Except ε Unit)
    (account : String) (is_cid : Bool) (containers : List String) :
    List DeleteCall × Option ε :=
  let r := runSeq (fun c => client (DeleteContainer.mkCall account is_cid c)) containers
  (r.1.map (DeleteContainer.mkCall account is_cid), r.2)

/-- Parsed arguments of `container unset`: the container/CID pair, the
`--property` keys to delete, and the five boolean system-reset flags. -/
structure UnsetArgs where
  container : String
  is_cid : Bool
  bucket_name : Bool
  property : List String
  storage_policy : Bool
  max_versions : Bool
  quota : Bool
  delete_exceeding_versions : Bool
deriving DecidableEq, Repr

/-- A call issued by `UnsetContainer.take_action`: either
`container_del_properties` or `container_set_properties`. -/
inductive UnsetCall where
  | delProps (account : String) (container : Option String)
      (props : List String) (cid : Option String)
  | setProps (account : String) (container : Option String)
      (system : List (String × String)) (cid : Option String)
deriving DecidableEq, Repr

/-- Embedding of the `system` dict built by `UnsetContainer.take_action`
(container.py lines 702-712): each given reset flag binds its key to the
empty string, in source order. -/
def UnsetContainer.buildSystem (a : UnsetArgs) : List (String × String) :=
  let system : List (String × String) := []
  let system := if a.bucket_name then dictSet system M2_PROP_BUCKET_NAME "" else system
  let system := if a.storage_policy then dictSet system M2_PROP_STORAGE_POLICY "" else system
  let system := if a.max_versions then dictSet system M2_PROP_VERSIONING_POLICY "" else system
  let system := if a.quota then dictSet system M2_PROP_QUOTA "" else system
  let system := if a.delete_exceeding_versions then
    dictSet system M2_PROP_DEL_EXC_VERSIONS "" else system
  system

/-- Embedding of `UnsetContainer.take_action` (container.py lines 697-723):
`container_del_properties` is called when the property list is non-empty or
the system dict is empty (`if properties or not system:`), and
`container_set_properties` is called when the system dict is non-empty.
Returns the issued calls in order. -/
def UnsetContainer.take_action (account : String) (a : UnsetArgs) : List UnsetCall :=
  let r := take_action_container a.container a.is_cid
  let system := UnsetContainer.buildSystem a
  (if a.property ≠ [] ∨ system = [] then
    [UnsetCall.delProps account r.1 a.property r.2] else [])
  ++ (if system ≠ [] then [UnsetCall.setProps account r.1 system r.2] else [])

/-- Embedding of the `full_list` generator loop of
`ListContainer.take_action` (container.py lines 627-639): given the current
page, stop if it is empty; otherwise pass `listing[-1][0]` (the first field
of the last entry) as the next marker, fetch the next page, and yield its
elements.  Entries are modelled as lists of strings whose head is the name.
Returns the yielded entries and the log of markers passed to the
subsequent fetches.  `fuel` bounds the number of iterations (the Python
loop may not terminate against an adversarial client). -/
def ListContainer.fullListLoop (client : Option String → List (List String)) :
    Nat → List (List String) → List (List String) × List (Option String)
  | 0, _ => ([], [])
  | fuel + 1, listing =>
    if listing.isEmpty then ([], [])
    else
      let m := (listing.getLastD []).headD ""
      let next := client (some m)
      let r := ListContainer.fullListLoop client fuel next
      (next ++ r.1, some m :: r.2)

/-- Embedding of the `--no-paging` branch of `ListContainer.take_action`
(container.py lines 626-641): one initial fetch with the initial marker,
then the loop.  Returns all yielded entries and the full log of markers
passed to the client, one per fetch, in order. -/
def ListContainer.full_list (client : Option String → List (List String))
    (m₀ : Option String) (fuel : Nat) :
    List (List String) × List (Option String) :=
  let listing := client m₀
  let r := ListContainer.fullListLoop client fuel listing
  (listing ++ r.1, m₀ :: r.2)

/-- The concrete paging client of the C6 scenario: pages [[a,b],[c,d],[]],
keyed by the marker the code should pass. -/
def ListContainer.pagesClient (m : Option String) : List (List String) :=
  match m with
  | none => [["a"], ["b"]]
  | some s => if s = "b" then [["c"], ["d"]] else []

/-- Decimal value of a digit character, if it is a digit. -/
def digitVal? (c : Char) : Option Nat :=
  if c.isDigit then some (c.toNat - 48) else none

/-- Accumulating decimal reading of a digit list; `none` on the first
non-digit character. -/
def digitsValAux : List Char → Nat → Option Nat
  | [], acc => some acc
  | c :: cs, acc =>
    match digitVal? c with
    | none => none
    | some d => digitsValAux cs (acc * 10 + d)

/-- Decimal value of a non-empty all-digit character list. -/
def digitsVal? : List Char → Option Nat
  | [] => none
  | c :: cs => digitsValAux (c :: cs) 0

/-- Python `int(s)` on a decimal string: optional sign followed by one or
more digits; any other shape raises `ValueError` (modelled as `none`). -/
def pyInt? (s : String) : Option Int :=
  match s.data with
  | [] => none
  | c :: rest =>
    if c = Char.ofNat 45 then (digitsVal? rest).map (fun n => -(n : Int))
    else if c = Char.ofNat 43 then (digitsVal? rest).map (fun n => (n : Int))
    else (digitsVal? (c :: rest)).map (fun n => (n : Int))

/-- Result of `container_get_properties` as seen by the `versioning` helper
of `ListBuckets.take_action`: either the `NoSuchContainer` exception or the
container's system-metadata map. -/
inductive FetchResult where
  | notFound
  | ok (system : List (String × String))
deriving DecidableEq, Repr

/-- Embedding of the `versioning` helper of `ListBuckets.take_action`
(container.py lines 536-550): `NoSuchContainer` is caught and yields
"Error"; otherwise the versioning-policy property is read from the system
map, an absent value or `int(value) == 0` yields "Suspended", any other
value "Enabled"; `int()` on a non-numeric string raises `ValueError`
(modelled with `pyInt?`). -/
def ListBuckets.versioning (fetch : String → FetchResult) (bucket : String) :
    Except PyError String :=
  match fetch bucket with
  | .notFound => .ok "Error"
  | .ok sys =>
    match sys.lookup M2_PROP_VERSIONING_POLICY with
    | none => .ok "Suspended"
    | some s =>
      match pyInt? s with
      | none => .error (.valueError s)
      | some v => .ok (if v = 0 then "Suspended" else "Enabled")

/-- Embedding of the `enrich` generator of `ListBuckets.take_action`
(container.py lines 555-559): one extra property fetch per listed bucket,
pairing each bucket with its Versioning column; an exception from
`versioning` (only possible as `ValueError`) propagates and aborts the
listing. -/
def ListBuckets.enrich (fetch : String → FetchResult) :
    List String → Except PyError (List (String × String))
  | [] => .ok []
  | b :: rest =>
    match ListBuckets.versioning fetch b with
    | .error e => .error e
    | .ok col =>
      match ListBuckets.enrich fetch rest with
      | .error e => .error e
      | .ok others => .ok ((b, col) :: others)

/-- The Versioning column as claim C9 words it: "Error" exactly when the
fetch fails with NotFound; "Suspended" when the versioning-policy property
is absent or its integer value is 0; "Enabled" for any other value. -/
def claimVersioningColumn (fetch : String → FetchResult) (b : String) : String :=
  match fetch b with
  | .notFound => "Error"
  | .ok sys =>
    match sys.lookup M2_PROP_VERSIONING_POLICY with
    | none => "Suspended"
    | some s => if pyInt? s = some 0 then "Suspended" else "Enabled"

/-- Parsed arguments of `container snapshot`: the container/CID pair,
`--dst-account`, `--dst-container` and `--chunk-batch-size`. -/
structure SnapshotArgs where
  container : String
  is_cid : Bool
  dst_account : Option String
  dst_container : Option String
  chunk_batch_size : Nat
deriving DecidableEq, Repr

/-- The `container_snapshot` call issued by `SnapshotContainer.take_action`. -/
structure SnapshotCall where
  account : String
  container : String
  dst_account : String
  dst_container : String
  batch_size : Nat
deriving DecidableEq, Repr

/-- Embedding of `SnapshotContainer.take_action` (container.py lines
942-961): resolves the container/CID pair; with a CID the source
`(account, container)` comes from `resolve_cid`, otherwise from the client
manager's account and the given name; the destination account defaults to
the source account and the destination container to the source container
suffixed with "-" and `Timestamp().normal` (the current timestamp, passed
here as `ts`); Python `or` makes `None` and `""` select the defaults. -/
def SnapshotContainer.take_action (resolve_cid : String → String × String)
    (clientAccount ts : String) (a : SnapshotArgs) : SnapshotCall :=
  let r := take_action_container a.container a.is_cid
  let src : String × String :=
    match r.2 with
    | none => (clientAccount, r.1.getD "")
    | some cidv => resolve_cid cidv
  let dst_account := pyOrElse a.dst_account src.1
  let dst_container := pyOrElse a.dst_container (src.2 ++ "-" ++ ts)
  ⟨src.1, src.2, dst_account, dst_container, a.chunk_batch_size⟩

/-- A concrete touch client used to exercise the batch loop: it fails on the
container named "b" and succeeds elsewhere. -/
def touchClientW : TouchCall → Except String Unit :=
  fun c => if c.container = some "b" then .error "boom" else .ok ()

/-- A concrete delete client used to exercise the batch loop: it fails on
the container named "b" and succeeds elsewhere. -/
def deleteClientW : DeleteCall → Except String Unit :=
  fun c => if c.container = some "b" then .error "crash" else .ok ()

/-- A concrete property-fetch used to exercise the bucket Versioning
column: one vanished bucket, one with versioning 0, one with versioning -1,
one with no versioning property. -/
def fetchW : String → FetchResult := fun b =>
  if b = "gone" then FetchResult.notFound
  else if b = "zero" then FetchResult.ok [(M2_PROP_VERSIONING_POLICY, "0")]
  else if b = "on" then FetchResult.ok [(M2_PROP_VERSIONING_POLICY, "-1")]
  else FetchResult.ok []

/-- Looking up the key just written by a Python dict assignment yields the
assigned value. -/
theorem dictSet_lookup_self (d : List (String × String)) (k v : String) :
    (dictSet d k v).lookup k = some v := by
  induction d with
  | nil => simp [dictSet, List.lookup]
  | cons p rest ih =>
    obtain ⟨k₁, v₁⟩ := p
    by_cases h : k₁ = k
    · subst h; simp [dictSet, List.lookup]
    · have hb : (k == k₁) = false := beq_eq_false_iff_ne.mpr (fun hh => h hh.symm)
      simp [dictSet, h, List.lookup, hb, ih]

/-- A Python dict assignment leaves the lookup of every other key
unchanged. -/
theorem dictSet_lookup_ne (d : List (String × String)) (k v k₁ : String)
    (h : k₁ ≠ k) : (dictSet d k v).lookup k₁ = d.lookup k₁ := by
  have hb : (k₁ == k) = false := beq_eq_false_iff_ne.mpr h
  induction d with
  | nil => simp [dictSet, List.lookup, hb]
  | cons p rest ih =>
    obtain ⟨k₂, v₂⟩ := p
    by_cases h2 : k₂ = k
    · subst h2; simp [dictSet, List.lookup, hb]
    · cases hk : k₁ == k₂ <;> simp [dictSet, h2, List.lookup, hk, ih]

/-- A sequential fallible loop over `pre ++ k :: post` where the operation
succeeds on all of `pre` and fails on `k` issues exactly the calls for
`pre ++ [k]` and propagates the error. -/
theorem runSeq_first_error {α ε : Type} (op : α → Except ε Unit)
    (pre : List α) (k : α) (post : List α) (e : ε)
    (hpre : ∀ x ∈ pre, op x = .ok ())
    (hk : op k = .error e) :
    runSeq op (pre ++ k :: post) = (pre ++ [k], some e) := by
  induction pre with
  | nil => simp [runSeq, hk]
  | cons x xs ih =>
    have hx : op x = .ok () := hpre x (by simp)
    have ih2 := ih (fun y hy => hpre y (by simp [hy]))
    simp [runSeq, hx, ih2]

/-- The lookup of each well-known key in the system map built by
`CreateContainer.take_action`, as a function of the corresponding parsed
flag. -/
theorem create_buildSystem_lookups (a : CreateArgs) :
    (CreateContainer.buildSystem a).lookup M2_PROP_BUCKET_NAME
        = a.bucket_name.bind (fun s => if s = "" then none else some s) ∧
    (CreateContainer.buildSystem a).lookup M2_PROP_QUOTA = a.quota.map toString ∧
    (CreateContainer.buildSystem a).lookup M2_PROP_STORAGE_POLICY = a.storage_policy ∧
    (CreateContainer.buildSystem a).lookup M2_PROP_VERSIONING_POLICY
        = a.max_versions.map toString ∧
    (CreateContainer.buildSystem a).lookup M2_PROP_DEL_EXC_VERSIONS
        = a.delete_exceeding_versions.map (fun b => if b then "1" else "0") := by
  rcases a with ⟨props, bn, q, sp, mv, dev, cs⟩
  rcases bn with _ | s
  · cases q <;> cases sp <;> cases mv <;> cases dev <;>
      simp [CreateContainer.buildSystem, dictSet, List.lookup,
        M2_PROP_BUCKET_NAME, M2_PROP_QUOTA, M2_PROP_STORAGE_POLICY,
        M2_PROP_VERSIONING_POLICY, M2_PROP_DEL_EXC_VERSIONS]
  · by_cases hs : s = "" <;> cases q <;> cases sp <;> cases mv <;> cases dev <;>
      simp [CreateContainer.buildSystem, dictSet, List.lookup, hs,
        M2_PROP_BUCKET_NAME, M2_PROP_QUOTA, M2_PROP_STORAGE_POLICY,
        M2_PROP_VERSIONING_POLICY, M2_PROP_DEL_EXC_VERSIONS]

/-- The lookup of each well-known key in the base system map built by
`SetContainer.take_action`, as a function of the corresponding parsed
flag. -/
theorem setBase_buildSystem_lookups (a : SetArgs) :
    (SetContainer.buildSystemBase a).lookup M2_PROP_BUCKET_NAME
        = a.bucket_name.bind (fun s => if s = "" then none else some s) ∧
    (SetContainer.buildSystemBase a).lookup M2_PROP_QUOTA = a.quota.map toString ∧
    (SetContainer.buildSystemBase a).lookup M2_PROP_STORAGE_POLICY = a.storage_policy ∧
    (SetContainer.buildSystemBase a).lookup M2_PROP_VERSIONING_POLICY
        = a.max_versions.map toString ∧
    (SetContainer.buildSystemBase a).lookup M2_PROP_DEL_EXC_VERSIONS
        = a.delete_exceeding_versions.map (fun b => if b then "1" else "0") := by
  rcases a with ⟨c, ic, props, bn, q, sp, mv, dev, cl, st⟩
  rcases bn with _ | s
  · cases q <;> cases sp <;> cases mv <;> cases dev <;>
      simp [SetContainer.buildSystemBase, dictSet, List.lookup,
        M2_PROP_BUCKET_NAME, M2_PROP_QUOTA, M2_PROP_STORAGE_POLICY,
        M2_PROP_VERSIONING_POLICY, M2_PROP_DEL_EXC_VERSIONS]
  · by_cases hs : s = "" <;> cases q <;> cases sp <;> cases mv <;> cases dev <;>
      simp [SetContainer.buildSystemBase, dictSet, List.lookup, hs,
        M2_PROP_BUCKET_NAME, M2_PROP_QUOTA, M2_PROP_STORAGE_POLICY,
        M2_PROP_VERSIONING_POLICY, M2_PROP_DEL_EXC_VERSIONS]

/-- The lookup of each well-known key in the system map built by
`UnsetContainer.take_action`: bound to the empty string exactly when the
corresponding reset flag was given. -/
theorem unset_buildSystem_lookups (a : UnsetArgs) :
    ((UnsetContainer.buildSystem a).lookup M2_PROP_BUCKET_NAME
        = if a.bucket_name then some "" else none) ∧
    ((UnsetContainer.buildSystem a).lookup M2_PROP_STORAGE_POLICY
        = if a.storage_policy then some "" else none) ∧
    ((UnsetContainer.buildSystem a).lookup M2_PROP_VERSIONING_POLICY
        = if a.max_versions then some "" else none) ∧
    ((UnsetContainer.buildSystem a).lookup M2_PROP_QUOTA
        = if a.quota then some "" else none) ∧
    ((UnsetContainer.buildSystem a).lookup M2_PROP_DEL_EXC_VERSIONS
        = if a.delete_exceeding_versions then some "" else none) := by
  rcases a with ⟨c, ic, bn, props, sp, mv, q, dev⟩
  cases bn <;> cases sp <;> cases mv <;> cases q <;> cases dev <;>
    simp [UnsetContainer.buildSystem, dictSet, List.lookup,
      M2_PROP_BUCKET_NAME, M2_PROP_QUOTA, M2_PROP_STORAGE_POLICY,
      M2_PROP_VERSIONING_POLICY, M2_PROP_DEL_EXC_VERSIONS]

/-- When `SetContainer.take_action` succeeds, the system map of the issued
call agrees with the base system map on every key other than
"sys.status". -/
theorem set_take_action_ok_system (account : String) (a : SetArgs)
    (call : SetPropsCall) (hok : SetContainer.take_action account a = .ok call)
    (k : String) (hk : k ≠ "sys.status") :
    call.system.lookup k = (SetContainer.buildSystemBase a).lookup k := by
  cases hstat : a.status with
  | none =>
    have hbs : SetContainer.buildSystem a = .ok (SetContainer.buildSystemBase a) := by
      simp [SetContainer.buildSystem, hstat]
    unfold SetContainer.take_action at hok
    rw [hbs] at hok
    simp only [Except.ok.injEq] at hok
    subst hok
    rfl
  | some st =>
    cases hl : SetContainer.statusValue.lookup st with
    | none =>
      have hbs : SetContainer.buildSystem a = .error (.keyError st) := by
        simp [SetContainer.buildSystem, hstat, hl]
      unfold SetContainer.take_action at hok
      rw [hbs] at hok
      simp at hok
    | some v =>
      have hbs : SetContainer.buildSystem a
          = .ok (dictSet (SetContainer.buildSystemBase a) "sys.status" v) := by
        simp [SetContainer.buildSystem, hstat, hl]
      unfold SetContainer.take_action at hok
      rw [hbs] at hok
      simp only [Except.ok.injEq] at hok
      subst hok
      exact dictSet_lookup_ne _ _ _ _ hk

/-- Claim C1: for every single-container command, identifier resolution on
the argument pair `(container, is_cid)` produces `(name, cid)` with exactly
one component non-null: `(none, some container)` when `is_cid` is true and
`(some container, none)` when it is false. -/
theorem claim1_identifier_resolution (container : String) (is_cid : Bool) :
    take_action_container container is_cid
      = (if is_cid then (none, some container) else (some container, none)) ∧
    ((take_action_container container is_cid).1 = none ↔
      ¬ (take_action_container container is_cid).2 = none) := by
  cases is_cid <;> simp [take_action_container]

/-- Claim C2, counterexample: with `--status bad` the `container set`
command fails by raising the bare `KeyError` of the `status_value` dict
subscript; the exception's message is just the quoted status value and
contains no "invalid status" text, so the claimed clear "invalid status"
error does not happen. -/
theorem claim2_status_counterexample :
    SetContainer.take_action "account"
        ⟨"cont", false, [], none, none, none, none, none, false, some "bad"⟩
      = .error (.keyError "bad") ∧
    pyErrMsg (.keyError "bad") = squote ++ "bad" ++ squote ∧
    strContains (pyErrMsg (.keyError "bad")) "invalid status" = false :=
  ⟨rfl, rfl, by decide⟩

/-- Claim C2 (amended): for every `container set` whose `--status` value is
not one of enabled/disabled/frozen, `take_action` fails with a `KeyError`
on that value before the `container_set_properties` call is issued (an
`error` result carries no call); for the three recognized values the
issued call's system map binds "sys.status" to the corresponding backend
status code. -/
theorem claim2_status_mapping (account : String) (a : SetArgs) (st : String)
    (hst : a.status = some st) :
    (st ≠ "enabled" → st ≠ "disabled" → st ≠ "frozen" →
      SetContainer.take_action account a = .error (.keyError st)) ∧
    (∀ code, SetContainer.statusValue.lookup st = some code →
      ∃ call, SetContainer.take_action account a = .ok call ∧
        call.system.lookup "sys.status" = some code) ∧
    SetContainer.statusValue.lookup "enabled" = some (toString OIO_DB_ENABLED) ∧
    SetContainer.statusValue.lookup "disabled" = some (toString OIO_DB_DISABLED) ∧
    SetContainer.statusValue.lookup "frozen" = some (toString OIO_DB_FROZEN) := by
  refine ⟨?_, ?_, by decide, by decide, by decide⟩
  · intro h1 h2 h3
    have hb1 : (st == "enabled") = false := beq_eq_false_iff_ne.mpr h1
    have hb2 : (st == "disabled") = false := beq_eq_false_iff_ne.mpr h2
    have hb3 : (st == "frozen") = false := beq_eq_false_iff_ne.mpr h3
    have hl : SetContainer.statusValue.lookup st = none := by
      simp [SetContainer.statusValue, List.lookup, hb1, hb2, hb3]
    simp [SetContainer.take_action, SetContainer.buildSystem, hst, hl]
  · intro code hl
    refine ⟨⟨account, (take_action_container a.container a.is_cid).1, a.property,
      a.clear, dictSet (SetContainer.buildSystemBase a) "sys.status" code,
      (take_action_container a.container a.is_cid).2⟩, ?_, ?_⟩
    · simp [SetContainer.take_action, SetContainer.buildSystem, hst, hl]
    · exact dictSet_lookup_self _ _ _

/-- Witness for claim C2's theorem: status "weird" raises `KeyError
"weird"` and no call is issued; status "frozen" issues a call whose system
map binds "sys.status" to the frozen status code. -/
theorem claim2_status_mapping_w :
    SetContainer.take_action "acct"
        ⟨"c", false, [], none, none, none, none, none, false, some "weird"⟩
      = .error (.keyError "weird") ∧
    ∃ call, SetContainer.take_action "acct"
        ⟨"c", false, [], none, none, none, none, none, false, some "frozen"⟩
      = .ok call ∧ call.system.lookup "sys.status" = some "1" := by
  constructor
  · exact (claim2_status_mapping "acct"
      ⟨"c", false, [], none, none, none, none, none, false, some "weird"⟩
      "weird" rfl).1 (by decide) (by decide) (by decide)
  · exact (claim2_status_mapping "acct"
      ⟨"c", false, [], none, none, none, none, none, false, some "frozen"⟩
      "frozen" rfl).2.1 "1" (by decide)

/-- Claim C3: `container touch` and `container delete` apply the client
operation to each batch member in input order; when the client raises on
the member `k` (all earlier members having succeeded), the calls for the
earlier members were already issued, the failing call was issued, no call
is issued for the later members, and the error propagates unchanged. -/
theorem claim3_batch_abort_on_error {ε : Type}
    (tclient : TouchCall → Except ε Unit) (dclient : DeleteCall → Except ε Unit)
    (account : String) (is_cid recompute : Bool)
    (pre : List String) (k : String) (post : List String) (e₁ e₂ : ε)
    (ht : ∀ c ∈ pre, tclient (TouchContainer.mkCall account is_cid recompute c) = .ok ())
    (htk : tclient (TouchContainer.mkCall account is_cid recompute k) = .error e₁)
    (hd : ∀ c ∈ pre, dclient (DeleteContainer.mkCall account is_cid c) = .ok ())
    (hdk : dclient (DeleteContainer.mkCall account is_cid k) = .error e₂) :
    TouchContainer.take_action tclient account is_cid recompute (pre ++ k :: post)
      = ((pre ++ [k]).map (TouchContainer.mkCall account is_cid recompute), some e₁) ∧
    DeleteContainer.take_action dclient account is_cid (pre ++ k :: post)
      = ((pre ++ [k]).map (DeleteContainer.mkCall account is_cid), some e₂) := by
  constructor
  · simp only [TouchContainer.take_action]
    rw [runSeq_first_error
      (fun c => tclient (TouchContainer.mkCall account is_cid recompute c))
      pre k post e₁ ht htk]
  · simp only [DeleteContainer.take_action]
    rw [runSeq_first_error
      (fun c => dclient (DeleteContainer.mkCall account is_cid c))
      pre k post e₂ hd hdk]

/-- Witness for claim C3: over the batch ["a", "b", "c"] with clients
failing on "b", both loops issue the calls for "a" and "b" only and
propagate the client's error. -/
theorem claim3_batch_abort_on_error_w :
    TouchContainer.take_action touchClientW "acct" false false ["a", "b", "c"]
      = ([TouchContainer.mkCall "acct" false false "a",
          TouchContainer.mkCall "acct" false false "b"], some "boom") ∧
    DeleteContainer.take_action deleteClientW "acct" false ["a", "b", "c"]
      = ([DeleteContainer.mkCall "acct" false "a",
          DeleteContainer.mkCall "acct" false "b"], some "crash") :=
  @claim3_batch_abort_on_error String touchClientW deleteClientW "acct" false false
    ["a"] "b" ["c"] "boom" "crash"
    (by intro c hc; simp only [List.mem_singleton] at hc; subst hc; rfl)
    rfl
    (by intro c hc; simp only [List.mem_singleton] at hc; subst hc; rfl)
    rfl

/-- Claim C4: `container unset` with no property keys and no reset flags
still issues the delete-properties call with an empty property list;
listed property keys are passed to the delete-properties call; and each
given reset flag leads to a set-properties call whose system map binds the
corresponding key to the empty string. -/
theorem claim4_unset_calls (account : String) (a : UnsetArgs) :
    (a.property = [] → a.bucket_name = false → a.storage_policy = false →
      a.max_versions = false → a.quota = false → a.delete_exceeding_versions = false →
      UnsetContainer.take_action account a
        = [UnsetCall.delProps account (take_action_container a.container a.is_cid).1 []
            (take_action_container a.container a.is_cid).2]) ∧
    (a.property ≠ [] →
      UnsetCall.delProps account (take_action_container a.container a.is_cid).1
          a.property (take_action_container a.container a.is_cid).2
        ∈ UnsetContainer.take_action account a) ∧
    (a.bucket_name = true →
      (UnsetContainer.buildSystem a).lookup M2_PROP_BUCKET_NAME = some "" ∧
      UnsetCall.setProps account (take_action_container a.container a.is_cid).1
          (UnsetContainer.buildSystem a) (take_action_container a.container a.is_cid).2
        ∈ UnsetContainer.take_action account a) ∧
    (a.storage_policy = true →
      (UnsetContainer.buildSystem a).lookup M2_PROP_STORAGE_POLICY = some "" ∧
      UnsetCall.setProps account (take_action_container a.container a.is_cid).1
          (UnsetContainer.buildSystem a) (take_action_container a.container a.is_cid).2
        ∈ UnsetContainer.take_action account a) ∧
    (a.max_versions = true →
      (UnsetContainer.buildSystem a).lookup M2_PROP_VERSIONING_POLICY = some "" ∧
      UnsetCall.setProps account (take_action_container a.container a.is_cid).1
          (UnsetContainer.buildSystem a) (take_action_container a.container a.is_cid).2
        ∈ UnsetContainer.take_action account a) ∧
    (a.quota = true →
      (UnsetContainer.buildSystem a).lookup M2_PROP_QUOTA = some "" ∧
      UnsetCall.setProps account (take_action_container a.container a.is_cid).1
          (UnsetContainer.buildSystem a) (take_action_container a.container a.is_cid).2
        ∈ UnsetContainer.take_action account a) ∧
    (a.delete_exceeding_versions = true →
      (UnsetContainer.buildSystem a).lookup M2_PROP_DEL_EXC_VERSIONS = some "" ∧
      UnsetCall.setProps account (take_action_container a.container a.is_cid).1
          (UnsetContainer.buildSystem a) (take_action_container a.container a.is_cid).2
        ∈ UnsetContainer.take_action account a) := by
  obtain ⟨hb, hsp, hmv, hq, hdev⟩ := unset_buildSystem_lookups a
  have hmem : UnsetContainer.buildSystem a ≠ [] →
      UnsetCall.setProps account (take_action_container a.container a.is_cid).1
          (UnsetContainer.buildSystem a) (take_action_container a.container a.is_cid).2
        ∈ UnsetContainer.take_action account a := by
    intro hne
    simp [UnsetContainer.take_action, hne]
  have hne_of : ∀ k₁ : String, (UnsetContainer.buildSystem a).lookup k₁ = some "" →
      UnsetContainer.buildSystem a ≠ [] := by
    intro k₁ hlk h0
    rw [h0] at hlk
    simp [List.lookup] at hlk
  refine ⟨?_, ?_, ?_, ?_, ?_, ?_, ?_⟩
  · intro h1 h2 h3 h4 h5 h6
    have hsys : UnsetContainer.buildSystem a = [] := by
      rcases a with ⟨c, ic, bn, props, sp, mv, q, dev⟩
      simp only at h2 h3 h4 h5 h6
      subst h2; subst h3; subst h4; subst h5; subst h6
      simp [UnsetContainer.buildSystem]
    simp [UnsetContainer.take_action, hsys, h1]
  · intro hp
    simp [UnsetContainer.take_action, hp]
  · intro hf
    have hlk : (UnsetContainer.buildSystem a).lookup M2_PROP_BUCKET_NAME = some "" := by
      rw [hb, hf]; rfl
    exact ⟨hlk, hmem (hne_of _ hlk)⟩
  · intro hf
    have hlk : (UnsetContainer.buildSystem a).lookup M2_PROP_STORAGE_POLICY = some "" := by
      rw [hsp, hf]; rfl
    exact ⟨hlk, hmem (hne_of _ hlk)⟩
  · intro hf
    have hlk : (UnsetContainer.buildSystem a).lookup M2_PROP_VERSIONING_POLICY = some "" := by
      rw [hmv, hf]; rfl
    exact ⟨hlk, hmem (hne_of _ hlk)⟩
  · intro hf
    have hlk : (UnsetContainer.buildSystem a).lookup M2_PROP_QUOTA = some "" := by
      rw [hq, hf]; rfl
    exact ⟨hlk, hmem (hne_of _ hlk)⟩
  · intro hf
    have hlk : (UnsetContainer.buildSystem a).lookup M2_PROP_DEL_EXC_VERSIONS = some "" := by
      rw [hdev, hf]; rfl
    exact ⟨hlk, hmem (hne_of _ hlk)⟩

/-- Witness for claim C4: with no flags at all the delete-properties call
is issued with the empty list; with one property key and two reset flags,
the property key goes through delete-properties and the system map of the
set-properties call binds both reset keys to the empty string. -/
theorem claim4_unset_calls_w :
    UnsetContainer.take_action "acct" ⟨"c", false, false, [], false, false, false, false⟩
      = [UnsetCall.delProps "acct" (some "c") [] none] ∧
    UnsetCall.delProps "acct" none ["k1"] (some "c")
      ∈ UnsetContainer.take_action "acct" ⟨"c", true, true, ["k1"], false, true, false, false⟩ ∧
    (UnsetContainer.buildSystem ⟨"c", true, true, ["k1"], false, true, false, false⟩).lookup
        M2_PROP_BUCKET_NAME = some "" ∧
    (UnsetContainer.buildSystem ⟨"c", true, true, ["k1"], false, true, false, false⟩).lookup
        M2_PROP_VERSIONING_POLICY = some "" ∧
    UnsetCall.setProps "acct" none
        (UnsetContainer.buildSystem ⟨"c", true, true, ["k1"], false, true, false, false⟩)
        (some "c")
      ∈ UnsetContainer.take_action "acct" ⟨"c", true, true, ["k1"], false, true, false, false⟩ := by
  refine ⟨?_, ?_, ?_, ?_, ?_⟩
  · exact (claim4_unset_calls "acct"
      ⟨"c", false, false, [], false, false, false, false⟩).1 rfl rfl rfl rfl rfl rfl
  · exact (claim4_unset_calls "acct"
      ⟨"c", true, true, ["k1"], false, true, false, false⟩).2.1 (by decide)
  · exact ((claim4_unset_calls "acct"
      ⟨"c", true, true, ["k1"], false, true, false, false⟩).2.2.1 rfl).1
  · exact ((claim4_unset_calls "acct"
      ⟨"c", true, true, ["k1"], false, true, false, false⟩).2.2.2.2.1 rfl).1
  · exact ((claim4_unset_calls "acct"
      ⟨"c", true, true, ["k1"], false, true, false, false⟩).2.2.1 rfl).2

/-- Mapping each element to a pair headed by itself and projecting the
first components back gives the original list. -/
theorem map_fst_pairing {β : Type} (f : String → β) (l : List String) :
    (l.map fun c => (c, f c)).map Prod.fst = l := by
  induction l with
  | nil => rfl
  | cons x xs ih => simp [ih]

/-- Claim C5: `container create` with more than one name issues a single
batch-create call whose result has one `(name, success)` pair per input
name, in input order; with exactly one name it issues a single
`container_create` call and returns that name's pair.  The batch result
shape relies on the spec-modelled `container_create_many`. -/
theorem claim5_create_batch (manyS oneS : String → Bool) (account : String)
    (a : CreateArgs) :
    (1 < a.containers.length →
      CreateContainer.take_action manyS oneS account a
        = ([CreateCall.createMany account a.containers a.property
              (CreateContainer.buildSystem a)],
           a.containers.map fun c => (c, manyS c))) ∧
    ((CreateContainer.take_action manyS oneS account a).2.map Prod.fst
        = a.containers) ∧
    (∀ c, a.containers = [c] →
      CreateContainer.take_action manyS oneS account a
        = ([CreateCall.createOne account c a.property (CreateContainer.buildSystem a)],
           [(c, oneS c)])) := by
  refine ⟨?_, ?_, ?_⟩
  · intro h
    simp [CreateContainer.take_action, h, container_create_many]
  · unfold CreateContainer.take_action
    split
    · exact map_fst_pairing manyS a.containers
    · exact map_fst_pairing oneS a.containers
  · rcases a with ⟨props, bn, q, sp, mv, dev, cs⟩
    intro c hc
    simp only at hc
    subst hc
    simp [CreateContainer.take_action]

/-- Witness for claim C5: three names go through one batch call with three
ordered pairs; one name goes through one single-create call with its
pair. -/
theorem claim5_create_batch_w :
    CreateContainer.take_action (fun _ => true) (fun _ => false) "acct"
        ⟨[], none, none, none, none, none, ["a", "b", "c"]⟩
      = ([CreateCall.createMany "acct" ["a", "b", "c"] [] []],
         [("a", true), ("b", true), ("c", true)]) ∧
    CreateContainer.take_action (fun _ => true) (fun _ => false) "acct"
        ⟨[], none, none, none, none, none, ["a"]⟩
      = ([CreateCall.createOne "acct" "a" [] []], [("a", false)]) := by
  constructor
  · exact ((claim5_create_batch (fun _ => true) (fun _ => false) "acct"
      ⟨[], none, none, none, none, none, ["a", "b", "c"]⟩).1 (by decide)).trans rfl
  · exact ((claim5_create_batch (fun _ => true) (fun _ => false) "acct"
      ⟨[], none, none, none, none, none, ["a"]⟩).2.2 "a" rfl).trans rfl

/-- Claim C6: `container list --no-paging` against a client returning the
pages [[a,b],[c,d],[]] yields exactly a,b,c,d; exactly three fetches are
made — the initial one with no marker, then one per loop step passing the
first field of the last entry of the previous page ("b", then "d") — and
no further fetch happens after the empty page. -/
theorem claim6_full_list_pagination :
    ListContainer.full_list ListContainer.pagesClient none 10
      = ([["a"], ["b"], ["c"], ["d"]], [none, some "b", some "d"]) := rfl

/-- Claim C7: in `container create` and `container set`, an integer `n`
given to `--max-versions` binds the versioning-policy key to exactly
`str(n)` in the system map sent to the backend, and an absent flag leaves
the key out. -/
theorem claim7_max_versions_verbatim (account : String) (a : CreateArgs)
    (s : SetArgs) :
    (∀ n : Int, a.max_versions = some n →
      (CreateContainer.buildSystem a).lookup M2_PROP_VERSIONING_POLICY
        = some (toString n)) ∧
    (a.max_versions = none →
      (CreateContainer.buildSystem a).lookup M2_PROP_VERSIONING_POLICY = none) ∧
    (∀ n : Int, ∀ call, s.max_versions = some n →
      SetContainer.take_action account s = .ok call →
      call.system.lookup M2_PROP_VERSIONING_POLICY = some (toString n)) ∧
    (∀ call, s.max_versions = none →
      SetContainer.take_action account s = .ok call →
      call.system.lookup M2_PROP_VERSIONING_POLICY = none) := by
  obtain ⟨_, _, _, hcv, _⟩ := create_buildSystem_lookups a
  obtain ⟨_, _, _, hsv, _⟩ := setBase_buildSystem_lookups s
  refine ⟨?_, ?_, ?_, ?_⟩
  · intro n hn; rw [hcv, hn]; rfl
  · intro hn; rw [hcv, hn]; rfl
  · intro n call hn hok
    rw [set_take_action_ok_system account s call hok _ (by decide), hsv, hn]; rfl
  · intro call hn hok
    rw [set_take_action_ok_system account s call hok _ (by decide), hsv, hn]; rfl

/-- Witness for claim C7: `--max-versions -1` on create binds the key to
"-1"; `--max-versions 5` on set binds it to "5"; absent flags leave the
key out. -/
theorem claim7_max_versions_verbatim_w :
    (CreateContainer.buildSystem ⟨[], none, none, none, some (-1), none, ["x"]⟩).lookup
        M2_PROP_VERSIONING_POLICY = some "-1" ∧
    (∃ call, SetContainer.take_action "acct"
        ⟨"c", false, [], none, none, none, some 5, none, false, none⟩ = .ok call ∧
      call.system.lookup M2_PROP_VERSIONING_POLICY = some "5") ∧
    (CreateContainer.buildSystem ⟨[], none, none, none, none, none, ["x"]⟩).lookup
        M2_PROP_VERSIONING_POLICY = none := by
  refine ⟨?_, ⟨_, rfl, ?_⟩, ?_⟩
  · exact ((claim7_max_versions_verbatim "acct"
      ⟨[], none, none, none, some (-1), none, ["x"]⟩
      ⟨"c", false, [], none, none, none, some 5, none, false, none⟩).1 (-1) rfl).trans rfl
  · exact ((claim7_max_versions_verbatim "acct"
      ⟨[], none, none, none, some (-1), none, ["x"]⟩
      ⟨"c", false, [], none, none, none, some 5, none, false, none⟩).2.2.1 5 _ rfl
        rfl).trans rfl
  · exact (claim7_max_versions_verbatim "acct"
      ⟨[], none, none, none, none, none, ["x"]⟩
      ⟨"c", false, [], none, none, none, some 5, none, false, none⟩).2.1 rfl

/-- Claim C8: `container snapshot` without `--dst-container` passes to
`container_snapshot` a destination container equal to the resolved source
container name, "-", and the current timestamp; without `--dst-account`
the destination account equals the resolved source account. -/
theorem claim8_snapshot_defaults (resolve : String → String × String)
    (account ts : String) (a : SnapshotArgs) :
    (a.dst_container = none →
      (SnapshotContainer.take_action resolve account ts a).dst_container
        = (SnapshotContainer.take_action resolve account ts a).container
            ++ "-" ++ ts) ∧
    (a.dst_account = none →
      (SnapshotContainer.take_action resolve account ts a).dst_account
        = (SnapshotContainer.take_action resolve account ts a).account) := by
  rcases a with ⟨c, ic, da, dc, bs⟩
  constructor
  · intro h
    simp only at h
    subst h
    cases ic <;>
      simp [SnapshotContainer.take_action, take_action_container, pyOrElse]
  · intro h
    simp only at h
    subst h
    cases ic <;>
      simp [SnapshotContainer.take_action, take_action_container, pyOrElse]

/-- Witness for claim C8: source "photos" at timestamp "TS" with neither
destination flag given snapshots to container "photos-TS" in the source
account. -/
theorem claim8_snapshot_defaults_w :
    (SnapshotContainer.take_action (fun _ => ("ra", "rc")) "acct" "TS"
        ⟨"photos", false, none, none, 100⟩).dst_container = "photos-TS" ∧
    (SnapshotContainer.take_action (fun _ => ("ra", "rc")) "acct" "TS"
        ⟨"photos", false, none, none, 100⟩).dst_account = "acct" := by
  constructor
  · exact ((claim8_snapshot_defaults (fun _ => ("ra", "rc")) "acct" "TS"
      ⟨"photos", false, none, none, 100⟩).1 rfl).trans rfl
  · exact ((claim8_snapshot_defaults (fun _ => ("ra", "rc")) "acct" "TS"
      ⟨"photos", false, none, none, 100⟩).2 rfl).trans rfl

/-- Claim C9: `bucket list --versioning` makes one extra property fetch per
listed bucket and pairs every bucket with its Versioning column — "Error"
exactly when the fetch fails with NotFound, "Suspended" when the
versioning-policy property is absent or its integer value is 0, "Enabled"
for any other value — and a NotFound on one bucket does not fail the whole
listing (the enrichment still succeeds on every bucket).  The hypothesis
only rules out non-numeric property values, on which the Python `int()`
would raise. -/
theorem claim9_bucket_versioning (fetch : String → FetchResult)
    (buckets : List String)
    (hwf : ∀ b ∈ buckets, ∀ sys s, fetch b = .ok sys →
      sys.lookup M2_PROP_VERSIONING_POLICY = some s → pyInt? s ≠ none) :
    ListBuckets.enrich fetch buckets
      = .ok (buckets.map fun b => (b, claimVersioningColumn fetch b)) := by
  induction buckets with
  | nil => rfl
  | cons b rest ih =>
    have hb := hwf b (by simp)
    have hv : ListBuckets.versioning fetch b = .ok (claimVersioningColumn fetch b) := by
      cases hf : fetch b with
      | notFound => simp [ListBuckets.versioning, claimVersioningColumn, hf]
      | ok sys =>
        cases hl : sys.lookup M2_PROP_VERSIONING_POLICY with
        | none => simp [ListBuckets.versioning, claimVersioningColumn, hf, hl]
        | some s =>
          cases hi : pyInt? s with
          | none => exact absurd hi (hb sys s hf hl)
          | some v =>
            by_cases hv0 : v = 0 <;>
              simp [ListBuckets.versioning, claimVersioningColumn, hf, hl, hi, hv0]
    have ih2 := ih (fun x hx => hwf x (List.mem_cons_of_mem b hx))
    simp [ListBuckets.enrich, hv, ih2]

/-- Witness for claim C9: a listing with a vanished bucket, a
versioning-0 bucket, a versioning -1 bucket and a bucket without the
property enriches to Error / Suspended / Enabled / Suspended without
failing. -/
theorem claim9_bucket_versioning_w :
    ListBuckets.enrich fetchW ["gone", "zero", "on", "plain"]
      = .ok [("gone", "Error"), ("zero", "Suspended"), ("on", "Enabled"),
             ("plain", "Suspended")] := by
  have h := claim9_bucket_versioning fetchW ["gone", "zero", "on", "plain"] ?_
  · exact h.trans (by rfl)
  · intro b hb sys s hf hl
    fin_cases hb
    · simp [fetchW] at hf
    · simp [fetchW] at hf
      subst hf
      simp [List.lookup] at hl
      subst hl
      decide
    · simp [fetchW] at hf
      subst hf
      simp [List.lookup] at hl
      subst hl
      decide
    · simp [fetchW] at hf
      subst hf
      simp [List.lookup] at hl

/-- Claim C10: in `container create` and `container set`, a `--bucket-name`
equal to the empty string is treated like an absent flag — the bucket-name
key is omitted and the system map equals the one built without the flag —
whereas `--quota`, `--storage-policy`, `--max-versions` and
`--delete-exceeding-versions` are included whenever present, even with an
empty string value; so the empty bucket name cannot be set through these
commands. -/
theorem claim10_empty_bucket_name (a : CreateArgs) (s : SetArgs) :
    (a.bucket_name = some "" →
      (CreateContainer.buildSystem a).lookup M2_PROP_BUCKET_NAME = none) ∧
    (s.bucket_name = some "" →
      (SetContainer.buildSystemBase s).lookup M2_PROP_BUCKET_NAME = none) ∧
    (CreateContainer.buildSystem
        ⟨a.property, some "", a.quota, a.storage_policy, a.max_versions,
          a.delete_exceeding_versions, a.containers⟩
      = CreateContainer.buildSystem
        ⟨a.property, none, a.quota, a.storage_policy, a.max_versions,
          a.delete_exceeding_versions, a.containers⟩) ∧
    (∀ q : Int, a.quota = some q →
      (CreateContainer.buildSystem a).lookup M2_PROP_QUOTA = some (toString q)) ∧
    (∀ p, a.storage_policy = some p →
      (CreateContainer.buildSystem a).lookup M2_PROP_STORAGE_POLICY = some p) ∧
    (∀ n : Int, a.max_versions = some n →
      (CreateContainer.buildSystem a).lookup M2_PROP_VERSIONING_POLICY
        = some (toString n)) ∧
    (∀ b, a.delete_exceeding_versions = some b →
      (CreateContainer.buildSystem a).lookup M2_PROP_DEL_EXC_VERSIONS
        = some (if b then "1" else "0")) ∧
    (∀ p, s.storage_policy = some p →
      (SetContainer.buildSystemBase s).lookup M2_PROP_STORAGE_POLICY = some p) ∧
    (∀ q : Int, s.quota = some q →
      (SetContainer.buildSystemBase s).lookup M2_PROP_QUOTA = some (toString q)) := by
  obtain ⟨hcb, hcq, hcs, hcv, hcd⟩ := create_buildSystem_lookups a
  obtain ⟨hsb, hsq, hss, _, _⟩ := setBase_buildSystem_lookups s
  refine ⟨?_, ?_, rfl, ?_, ?_, ?_, ?_, ?_, ?_⟩
  · intro h; rw [hcb, h]; rfl
  · intro h; rw [hsb, h]; rfl
  · intro q h; rw [hcq, h]; rfl
  · intro p h; rw [hcs, h]
  · intro n h; rw [hcv, h]; rfl
  · intro b h; rw [hcd, h]; rfl
  · intro p h; rw [hss, h]
  · intro q h; rw [hsq, h]; rfl

/-- Witness for claim C10: with `--bucket-name ""` and `--storage-policy ""`
on create, the bucket-name key is omitted while the storage-policy key is
present with the empty value. -/
theorem claim10_empty_bucket_name_w :
    (CreateContainer.buildSystem ⟨[], some "", none, some "", none, none, ["x"]⟩).lookup
        M2_PROP_BUCKET_NAME = none ∧
    (CreateContainer.buildSystem ⟨[], some "", none, some "", none, none, ["x"]⟩).lookup
        M2_PROP_STORAGE_POLICY = some "" := by
  constructor
  · exact (claim10_empty_bucket_name ⟨[], some "", none, some "", none, none, ["x"]⟩
      ⟨"c", false, [], none, none, none, none, none, false, none⟩).1 rfl
  · exact (claim10_empty_bucket_name ⟨[], some "", none, some "", none, none, ["x"]⟩
      ⟨"c", false, [], none, none, none, none, none, false, none⟩).2.2.2.2.1 "" rfl

end OioContainerCli
